import Mathlib

/-!
OpenTTD small map window: smallmap_gui.h

A shallow embedding of the inline members of class SmallMapWindow declared in
src/smallmap_gui.h: the legend layout helpers, the overlay company mask, the
map indicator drawing primitives and the two interval timers.

Conventions.
* The C++ type uint is a 32-bit unsigned integer. Values are natural numbers and
  every addition and multiplication of the source is reduced modulo 2 ^ 32.
* The C++ type int is embedded as an unbounded integer. Signed overflow is
  undefined in C++, so the embedding describes the defined executions.
* Division by a zero column width is undefined in C++. The embedding uses the
  total division of the natural numbers, and the theorems that depend on the
  quotient assume a positive column width.
* Names that smallmap_gui.h uses without declaring them (widget dimensions, font
  height, company pool, company mask type, GetNumberRowsLegend) are fields of
  the structure Env.
-/

namespace SmallMap

/-- Number of values of the 32-bit C++ type uint. -/
def UINT_SIZE : Nat := 2 ^ 32

/-- Types of legends in the legend widget (enum SmallMapType, lines 56-64). -/
inductive SmallMapType where
  | SMT_CONTOUR
  | SMT_VEHICLES
  | SMT_INDUSTRY
  | SMT_LINKSTATS
  | SMT_ROUTES
  | SMT_VEGETATION
  | SMT_OWNER
  deriving DecidableEq, Repr

/-- Minimal number of columns in the legend widget for the industry legend (line 77). -/
def INDUSTRY_MIN_NUMBER_OF_COLUMNS : Nat := 2

/-- Data members of SmallMapWindow (lines 73-89). The three static members come first.
The overlay pointer is kept as an address. -/
structure SmallMapWindow where
  map_type : SmallMapType
  show_towns : Bool
  map_height_limit : Int
  min_number_of_columns : Nat
  min_number_of_fixed_rows : Nat
  column_width : Nat
  legend_width : Nat
  scroll_x : Int
  scroll_y : Int
  subscroll : Int
  zoom : Int
  overlay : Nat
  deriving DecidableEq, Repr

/-- Everything the inline members read that smallmap_gui.h does not declare itself.
* framerect_left and framerect_vertical stand for WidgetDimensions::scaled.framerect.left
  and WidgetDimensions::scaled.framerect.Vertical().
* FONT_HEIGHT_SMALL is the height of the small font in pixels, as a uint.
* local_company stands for the global _local_company and IsValidID for Company::IsValidID.
* companyMaskBits is the bit width of the unsigned integer type CompanyMask.
* GetNumberRowsLegend is the member declared on line 168 whose body is in another file. -/
structure Env where
  framerect_left : Nat
  framerect_vertical : Nat
  FONT_HEIGHT_SMALL : Nat
  local_company : Nat
  IsValidID : Nat → Bool
  companyMaskBits : Nat
  GetNumberRowsLegend : SmallMapWindow → Nat → Nat

/-- Compute minimal required width of the legends (lines 122-125). -/
def GetMinLegendWidth (env : Env) (w : SmallMapWindow) : Nat :=
  (env.framerect_left + (w.min_number_of_columns * w.column_width) % UINT_SIZE) % UINT_SIZE

/-- Return number of columns that can be displayed in width pixels (lines 131-134). -/
def GetNumberColumnsLegend (w : SmallMapWindow) (width : Nat) : Nat :=
  width / w.column_width

/-- Compute height given a number of columns (lines 141-145). -/
def GetLegendHeight (env : Env) (w : SmallMapWindow) (num_columns : Nat) : Nat :=
  (env.framerect_vertical +
    (env.GetNumberRowsLegend w num_columns * env.FONT_HEIGHT_SMALL) % UINT_SIZE) % UINT_SIZE

/-- Modelled from the spec: the preprocessor definition MAX_UVALUE is not declared in
smallmap_gui.h. It is read as the maximum value of an unsigned type of the given bit
width, that is the value with all bits set. -/
def MAX_UVALUE (bits : Nat) : Nat := 2 ^ bits - 1

/-- Get a bitmask for company links to be displayed (lines 152-155). The literal 1U is a
32-bit unsigned int, so the shift is reduced modulo 2 ^ 32, and the return statement
converts the value to CompanyMask, which reduces it modulo 2 ^ companyMaskBits. -/
def GetOverlayCompanyMask (env : Env) : Nat :=
  (if env.IsValidID env.local_company then (1 <<< env.local_company) % UINT_SIZE
    else MAX_UVALUE env.companyMaskBits) % 2 ^ env.companyMaskBits

/-- A call of a const member function: it yields the value of the body and leaves the
object as it was, since none of the bodies embedded here assigns to a member. -/
def constCall {α : Type} (f : SmallMapWindow → α) (w : SmallMapWindow) : α × SmallMapWindow :=
  (f w, w)

/-- Palette colours. The source names only PC_VERY_LIGHT_YELLOW. Every other palette
entry is represented by its index. -/
inductive PaletteColour where
  | PC_VERY_LIGHT_YELLOW
  | PC_INDEX (index : Nat)
  deriving DecidableEq, Repr

/-- One call GfxFillRect(left, top, right, bottom, colour). -/
structure FillRect where
  left : Int
  top : Int
  right : Int
  bottom : Int
  colour : PaletteColour
  deriving DecidableEq, Repr

/-- Draws vertical part of map indicator (lines 100-104): the calls made, in order. -/
def DrawVertMapIndicator (x y y2 : Int) : List FillRect :=
  [ FillRect.mk x y x (y + 3) PaletteColour.PC_VERY_LIGHT_YELLOW,
    FillRect.mk x (y2 - 3) x y2 PaletteColour.PC_VERY_LIGHT_YELLOW ]

/-- Draws horizontal part of map indicator (lines 112-116): the calls made, in order. -/
def DrawHorizMapIndicator (x x2 y : Int) : List FillRect :=
  [ FillRect.mk x y (x + 3) y PaletteColour.PC_VERY_LIGHT_YELLOW,
    FillRect.mk (x2 - 3) y x2 y PaletteColour.PC_VERY_LIGHT_YELLOW ]

/-- Modelled from the spec: GfxFillRect is not declared in smallmap_gui.h. A fill is read
as covering the rectangle from (left, top) to (right, bottom), both corners included,
which is the reading under which a fill from y to y + 3 covers rows y..y+3. -/
def FillRect.covers (r : FillRect) (px py : Int) : Bool :=
  decide (r.left ≤ px ∧ px ≤ r.right ∧ r.top ≤ py ∧ py ≤ r.bottom)

/-- The pixel (px, py) is painted by at least one fill of the list. -/
def painted (fills : List FillRect) (px py : Int) : Bool :=
  fills.any (fun r => r.covers px py)

/-- Exchange the x and y axes of a fill. -/
def FillRect.transpose (r : FillRect) : FillRect :=
  FillRect.mk r.top r.left r.bottom r.right r.colour

/-- A window showing the industry legend with columns 100 pixels wide. -/
def industryWindow : SmallMapWindow :=
  SmallMapWindow.mk SmallMapType.SMT_INDUSTRY true 15 2 7 100 8 0 0 0 1 0

/-- A window showing the contour legend with columns 100 pixels wide. -/
def contourWindow : SmallMapWindow :=
  SmallMapWindow.mk SmallMapType.SMT_CONTOUR false 15 3 7 100 8 (-64) 32 2 4 0

/-- A row count that only depends on the column count, for evaluating examples. -/
def sampleRows (_w : SmallMapWindow) (columns : Nat) : Nat := 40 / (columns + 1) + 7

/-- An environment with company 3 as the local company: frame padding 2 left and 4
vertical, small font 10 pixels high, companies 0 to 4 valid, a 16-bit company mask. -/
def playerEnv : Env :=
  Env.mk 2 4 10 3 (fun c => decide (c < 5)) 16 sampleRows

/-- The same environment seen by a spectator (local company 255 is no valid company). -/
def spectatorEnv : Env :=
  Env.mk 2 4 10 255 (fun c => decide (c < 5)) 16 sampleRows

/-! ## Helper lemmas -/

/-- The 32-bit reduction is the identity on values that fit. -/
theorem uint_mod_of_lt {n : Nat} (h : n < UINT_SIZE) : n % UINT_SIZE = n :=
  Nat.mod_eq_of_lt h

/-- The minimal legend width is the wrapped sum of the left padding and the columns. -/
theorem GetMinLegendWidth_eq_mod (env : Env) (w : SmallMapWindow) :
    GetMinLegendWidth env w =
      (env.framerect_left + w.min_number_of_columns * w.column_width) % UINT_SIZE := by
  unfold GetMinLegendWidth
  exact (Nat.add_mod_mod _ _ _)

/-- The legend height is the wrapped sum of the vertical padding and the rows. -/
theorem GetLegendHeight_eq_mod (env : Env) (w : SmallMapWindow) (n : Nat) :
    GetLegendHeight env w n =
      (env.framerect_vertical + env.GetNumberRowsLegend w n * env.FONT_HEIGHT_SMALL)
        % UINT_SIZE := by
  unfold GetLegendHeight
  exact (Nat.add_mod_mod _ _ _)

/-- At least k columns fit exactly when k column widths fit in the width. -/
theorem le_GetNumberColumnsLegend_iff (w : SmallMapWindow) (width k : Nat)
    (hcw : 0 < w.column_width) :
    k ≤ GetNumberColumnsLegend w width ↔ k * w.column_width ≤ width := by
  unfold GetNumberColumnsLegend
  exact Nat.le_div_iff_mul_le hcw

/-! ## Legend columns -/

/-- Claim C1: for a positive column width, GetNumberColumnsLegend(width) is the quotient
width / column_width rounded down: n columns fit in width pixels, n + 1 columns do not,
and no larger number of columns fits. -/
theorem GetNumberColumnsLegend_floor (w : SmallMapWindow) (width : Nat)
    (hcw : 0 < w.column_width) :
    GetNumberColumnsLegend w width = width / w.column_width ∧
    GetNumberColumnsLegend w width * w.column_width ≤ width ∧
    width < (GetNumberColumnsLegend w width + 1) * w.column_width ∧
    (∀ n : Nat, n * w.column_width ≤ width → n ≤ GetNumberColumnsLegend w width) ∧
    (∀ n : Nat, n * w.column_width ≤ width → width < (n + 1) * w.column_width →
      n = GetNumberColumnsLegend w width) := by
  have hle : GetNumberColumnsLegend w width * w.column_width ≤ width :=
    (le_GetNumberColumnsLegend_iff w width _ hcw).mp (le_refl _)
  have hlt : width < (GetNumberColumnsLegend w width + 1) * w.column_width := by
    by_contra hnot
    have h1 := (le_GetNumberColumnsLegend_iff w width _ hcw).mpr (Nat.le_of_not_lt hnot)
    omega
  refine ⟨rfl, hle, hlt, ?_, ?_⟩
  · intro n hn
    exact (le_GetNumberColumnsLegend_iff w width n hcw).mpr hn
  · intro n hn hn1
    have h1 : n ≤ GetNumberColumnsLegend w width :=
      (le_GetNumberColumnsLegend_iff w width n hcw).mpr hn
    have h2 : ¬ (n + 1 ≤ GetNumberColumnsLegend w width) := by
      intro h
      have := (le_GetNumberColumnsLegend_iff w width (n + 1) hcw).mp h
      omega
    omega

/-- Witness for claim C1: 350 pixels hold 3 columns of 100 pixels. -/
theorem GetNumberColumnsLegend_floor_witness :
    GetNumberColumnsLegend industryWindow 350 = 350 / industryWindow.column_width ∧
    GetNumberColumnsLegend industryWindow 350 * industryWindow.column_width ≤ 350 ∧
    350 < (GetNumberColumnsLegend industryWindow 350 + 1) * industryWindow.column_width ∧
    (∀ n : Nat, n * industryWindow.column_width ≤ 350 →
      n ≤ GetNumberColumnsLegend industryWindow 350) ∧
    (∀ n : Nat, n * industryWindow.column_width ≤ 350 →
      350 < (n + 1) * industryWindow.column_width →
      n = GetNumberColumnsLegend industryWindow 350) :=
  GetNumberColumnsLegend_floor industryWindow 350 (by decide)

/-- Counterexample to claim C3 as stated: with the industry legend shown and columns of
100 pixels, a widget 150 pixels wide gets 1 column, and a widget 0 pixels wide gets 0
columns, both below INDUSTRY_MIN_NUMBER_OF_COLUMNS. -/
theorem industry_columns_below_minimum :
    industryWindow.map_type = SmallMapType.SMT_INDUSTRY ∧
    0 < industryWindow.column_width ∧
    GetNumberColumnsLegend industryWindow 150 = 1 ∧
    GetNumberColumnsLegend industryWindow 0 = 0 ∧
    ¬ (INDUSTRY_MIN_NUMBER_OF_COLUMNS ≤ GetNumberColumnsLegend industryWindow 150) := by
  decide

/-- Claim C3 as amended: for a positive column width, GetNumberColumnsLegend(width) is at
least INDUSTRY_MIN_NUMBER_OF_COLUMNS = 2 exactly for the widths that hold two columns,
width >= 2 * column_width, whatever legend is shown. -/
theorem industry_columns_ge_minimum_iff (w : SmallMapWindow) (width : Nat)
    (hcw : 0 < w.column_width) :
    INDUSTRY_MIN_NUMBER_OF_COLUMNS = 2 ∧
    (INDUSTRY_MIN_NUMBER_OF_COLUMNS ≤ GetNumberColumnsLegend w width ↔
      INDUSTRY_MIN_NUMBER_OF_COLUMNS * w.column_width ≤ width) :=
  ⟨rfl, le_GetNumberColumnsLegend_iff w width INDUSTRY_MIN_NUMBER_OF_COLUMNS hcw⟩

/-- Witness for amended claim C3: the industry legend in a widget 350 pixels wide. -/
theorem industry_columns_ge_minimum_iff_witness :
    INDUSTRY_MIN_NUMBER_OF_COLUMNS = 2 ∧
    (INDUSTRY_MIN_NUMBER_OF_COLUMNS ≤ GetNumberColumnsLegend industryWindow 350 ↔
      INDUSTRY_MIN_NUMBER_OF_COLUMNS * industryWindow.column_width ≤ 350) :=
  industry_columns_ge_minimum_iff industryWindow 350 (by decide)

/-- Counterexample to claim C4 as stated: with the contour legend shown and columns of
100 pixels, a widget 99 pixels wide gets 0 columns. -/
theorem other_columns_below_one :
    contourWindow.map_type ≠ SmallMapType.SMT_INDUSTRY ∧
    0 < contourWindow.column_width ∧
    GetNumberColumnsLegend contourWindow 99 = 0 ∧
    ¬ (1 ≤ GetNumberColumnsLegend contourWindow 99) := by
  decide

/-- Claim C4 as amended: for a positive column width, GetNumberColumnsLegend(width) is at
least 1 exactly for the widths that hold one column, width >= column_width, and it is 0
for every narrower width. -/
theorem other_columns_ge_one_iff (w : SmallMapWindow) (width : Nat)
    (hcw : 0 < w.column_width) :
    (1 ≤ GetNumberColumnsLegend w width ↔ w.column_width ≤ width) ∧
    (width < w.column_width → GetNumberColumnsLegend w width = 0) := by
  have h := le_GetNumberColumnsLegend_iff w width 1 hcw
  rw [Nat.one_mul] at h
  refine ⟨h, ?_⟩
  intro hlt
  have : ¬ (1 ≤ GetNumberColumnsLegend w width) := fun h1 => by
    have := h.mp h1
    omega
  omega

/-- Witness for amended claim C4: the contour legend in a widget 250 pixels wide. -/
theorem other_columns_ge_one_iff_witness :
    (1 ≤ GetNumberColumnsLegend contourWindow 250 ↔ contourWindow.column_width ≤ 250) ∧
    (250 < contourWindow.column_width → GetNumberColumnsLegend contourWindow 250 = 0) :=
  other_columns_ge_one_iff contourWindow 250 (by decide)

/-- Claim C9: when the column width is positive and framerect.left +
min_number_of_columns * column_width fits in 32 bits, every width of at least
GetMinLegendWidth() holds at least min_number_of_columns columns, the minimal width
itself does, and it holds exactly that many when framerect.left < column_width. -/
theorem min_legend_width_suffices (env : Env) (w : SmallMapWindow) (width : Nat)
    (hcw : 0 < w.column_width)
    (hfit : env.framerect_left + w.min_number_of_columns * w.column_width < UINT_SIZE)
    (hwidth : GetMinLegendWidth env w ≤ width) :
    w.min_number_of_columns ≤ GetNumberColumnsLegend w width ∧
    w.min_number_of_columns ≤ GetNumberColumnsLegend w (GetMinLegendWidth env w) ∧
    (env.framerect_left < w.column_width →
      GetNumberColumnsLegend w (GetMinLegendWidth env w) = w.min_number_of_columns) := by
  have hmin : GetMinLegendWidth env w =
      env.framerect_left + w.min_number_of_columns * w.column_width := by
    rw [GetMinLegendWidth_eq_mod, uint_mod_of_lt hfit]
  refine ⟨?_, ?_, ?_⟩
  · apply (le_GetNumberColumnsLegend_iff w width _ hcw).mpr
    omega
  · apply (le_GetNumberColumnsLegend_iff w _ _ hcw).mpr
    omega
  · intro hleft
    rw [hmin]
    unfold GetNumberColumnsLegend
    rw [Nat.add_mul_div_right _ _ hcw, Nat.div_eq_of_lt hleft, Nat.zero_add]

/-- Witness for claim C9: left padding 2, two columns of 100 pixels, widget 350 wide. -/
theorem min_legend_width_suffices_witness :
    industryWindow.min_number_of_columns ≤ GetNumberColumnsLegend industryWindow 350 ∧
    industryWindow.min_number_of_columns ≤
      GetNumberColumnsLegend industryWindow (GetMinLegendWidth playerEnv industryWindow) ∧
    (playerEnv.framerect_left < industryWindow.column_width →
      GetNumberColumnsLegend industryWindow (GetMinLegendWidth playerEnv industryWindow) =
        industryWindow.min_number_of_columns) :=
  min_legend_width_suffices playerEnv industryWindow 350 (by decide) (by decide) (by decide)

/-! ## Legend height -/

/-- Claim C8: GetLegendHeight(num_columns) is framerect.Vertical() +
GetNumberRowsLegend(num_columns) * FONT_HEIGHT_SMALL in 32-bit unsigned arithmetic. When
that sum fits in 32 bits the height is the exact sum and is at least the vertical frame
padding, and a legend with at most as many rows as one whose sum fits is at most as high. -/
theorem GetLegendHeight_spec (env : Env) (s t : SmallMapWindow) (n m : Nat) :
    GetLegendHeight env s n =
      (env.framerect_vertical + env.GetNumberRowsLegend s n * env.FONT_HEIGHT_SMALL)
        % UINT_SIZE ∧
    (env.framerect_vertical + env.GetNumberRowsLegend s n * env.FONT_HEIGHT_SMALL < UINT_SIZE →
      GetLegendHeight env s n =
        env.framerect_vertical + env.GetNumberRowsLegend s n * env.FONT_HEIGHT_SMALL ∧
      env.framerect_vertical ≤ GetLegendHeight env s n) ∧
    (env.GetNumberRowsLegend s n ≤ env.GetNumberRowsLegend t m →
      env.framerect_vertical + env.GetNumberRowsLegend t m * env.FONT_HEIGHT_SMALL < UINT_SIZE →
      GetLegendHeight env s n ≤ GetLegendHeight env t m) := by
  refine ⟨GetLegendHeight_eq_mod env s n, ?_, ?_⟩
  · intro hfit
    rw [GetLegendHeight_eq_mod, uint_mod_of_lt hfit]
    exact ⟨rfl, Nat.le_add_right _ _⟩
  · intro hrows hfit
    have hmul : env.GetNumberRowsLegend s n * env.FONT_HEIGHT_SMALL ≤
        env.GetNumberRowsLegend t m * env.FONT_HEIGHT_SMALL :=
      Nat.mul_le_mul_right _ hrows
    have hfit1 : env.framerect_vertical +
        env.GetNumberRowsLegend s n * env.FONT_HEIGHT_SMALL < UINT_SIZE := by omega
    rw [GetLegendHeight_eq_mod, GetLegendHeight_eq_mod, uint_mod_of_lt hfit,
      uint_mod_of_lt hfit1]
    omega

/-- Witness for claim C8: 9 columns need 11 rows and 3 columns need 17 rows of 10 pixels,
on top of 4 pixels of vertical padding. -/
theorem GetLegendHeight_spec_witness :
    GetLegendHeight playerEnv industryWindow 9 = 114 ∧
    playerEnv.framerect_vertical ≤ GetLegendHeight playerEnv industryWindow 9 ∧
    GetLegendHeight playerEnv industryWindow 9 ≤ GetLegendHeight playerEnv contourWindow 3 :=
  ⟨((GetLegendHeight_spec playerEnv industryWindow contourWindow 9 3).2.1 (by decide)).1,
   ((GetLegendHeight_spec playerEnv industryWindow contourWindow 9 3).2.1 (by decide)).2,
   (GetLegendHeight_spec playerEnv industryWindow contourWindow 9 3).2.2
     (by decide) (by decide)⟩

/-! ## Purity of the legend layout -/

/-- Claim C6: the legend layout functions depend only on the legend size and the widget
width. For two windows with the same column_width and min_number_of_columns, under
environments with the same padding and font height, GetNumberColumnsLegend and
GetMinLegendWidth agree whatever the other members hold, GetLegendHeight agrees whenever
GetNumberRowsLegend does, and calling any of the three leaves the window unchanged. -/
theorem legend_layout_pure (env1 env2 : Env) (s t : SmallMapWindow) (width n m : Nat)
    (hcw : s.column_width = t.column_width)
    (hmin : s.min_number_of_columns = t.min_number_of_columns)
    (hleft : env1.framerect_left = env2.framerect_left)
    (hvert : env1.framerect_vertical = env2.framerect_vertical)
    (hfont : env1.FONT_HEIGHT_SMALL = env2.FONT_HEIGHT_SMALL) :
    GetNumberColumnsLegend s width = GetNumberColumnsLegend t width ∧
    GetMinLegendWidth env1 s = GetMinLegendWidth env2 t ∧
    (env1.GetNumberRowsLegend s n = env2.GetNumberRowsLegend t m →
      GetLegendHeight env1 s n = GetLegendHeight env2 t m) ∧
    (constCall (fun w => GetNumberColumnsLegend w width) s).2 = s ∧
    (constCall (GetMinLegendWidth env1) s).2 = s ∧
    (constCall (fun w => GetLegendHeight env1 w n) s).2 = s := by
  refine ⟨?_, ?_, ?_, rfl, rfl, rfl⟩
  · unfold GetNumberColumnsLegend
    rw [hcw]
  · unfold GetMinLegendWidth
    rw [hcw, hmin, hleft]
  · intro hrows
    unfold GetLegendHeight
    rw [hrows, hvert, hfont]

/-- Witness for claim C6: two windows that differ in legend shown, town display, fixed
rows, scroll position, subscroll and zoom but share column width and column minimum. -/
theorem legend_layout_pure_witness :
    GetNumberColumnsLegend industryWindow 350 =
      GetNumberColumnsLegend
        (SmallMapWindow.mk SmallMapType.SMT_OWNER false 31 2 9 100 12 (-640) 96 3 8 7) 350 ∧
    GetMinLegendWidth playerEnv industryWindow =
      GetMinLegendWidth spectatorEnv
        (SmallMapWindow.mk SmallMapType.SMT_OWNER false 31 2 9 100 12 (-640) 96 3 8 7) ∧
    (playerEnv.GetNumberRowsLegend industryWindow 3 =
        spectatorEnv.GetNumberRowsLegend
          (SmallMapWindow.mk SmallMapType.SMT_OWNER false 31 2 9 100 12 (-640) 96 3 8 7) 3 →
      GetLegendHeight playerEnv industryWindow 3 =
        GetLegendHeight spectatorEnv
          (SmallMapWindow.mk SmallMapType.SMT_OWNER false 31 2 9 100 12 (-640) 96 3 8 7) 3) ∧
    (constCall (fun w => GetNumberColumnsLegend w 350) industryWindow).2 = industryWindow ∧
    (constCall (GetMinLegendWidth playerEnv) industryWindow).2 = industryWindow ∧
    (constCall (fun w => GetLegendHeight playerEnv w 3) industryWindow).2 = industryWindow :=
  legend_layout_pure playerEnv spectatorEnv industryWindow
    (SmallMapWindow.mk SmallMapType.SMT_OWNER false 31 2 9 100 12 (-640) 96 3 8 7)
    350 3 3 rfl rfl rfl rfl rfl

/-! ## Overlay company mask -/

/-- Claim C2: GetOverlayCompanyMask is the single bit of the local company for a valid
local company below the bit width of CompanyMask (and below 32, where the shift of the
32-bit literal 1U is defined), and the maximum value of CompanyMask, all bits set, for a
spectator. -/
theorem GetOverlayCompanyMask_spec (env : Env) :
    (env.IsValidID env.local_company = true →
      env.local_company < env.companyMaskBits → env.local_company < 32 →
      GetOverlayCompanyMask env = 2 ^ env.local_company ∧
      ∀ i : Nat, (GetOverlayCompanyMask env).testBit i = true ↔ i = env.local_company) ∧
    (env.IsValidID env.local_company = false →
      GetOverlayCompanyMask env = MAX_UVALUE env.companyMaskBits ∧
      GetOverlayCompanyMask env + 1 = 2 ^ env.companyMaskBits ∧
      ∀ i : Nat, (GetOverlayCompanyMask env).testBit i = true ↔ i < env.companyMaskBits) := by
  constructor
  · intro hvalid hbits h32
    have hval : GetOverlayCompanyMask env = 2 ^ env.local_company := by
      unfold GetOverlayCompanyMask UINT_SIZE
      rw [if_pos hvalid, Nat.one_shiftLeft,
        Nat.mod_eq_of_lt (Nat.pow_lt_pow_right (by decide) h32),
        Nat.mod_eq_of_lt (Nat.pow_lt_pow_right (by decide) hbits)]
    refine ⟨hval, ?_⟩
    intro i
    rw [hval, Nat.testBit_two_pow]
    simp [eq_comm]
  · intro hspec
    have hpos : 0 < 2 ^ env.companyMaskBits := Nat.two_pow_pos _
    have hval : GetOverlayCompanyMask env = 2 ^ env.companyMaskBits - 1 := by
      unfold GetOverlayCompanyMask MAX_UVALUE
      rw [hspec]
      simp only [Bool.false_eq_true, if_false]
      exact Nat.mod_eq_of_lt (by omega)
    refine ⟨hval, by omega, ?_⟩
    intro i
    rw [hval, Nat.testBit_two_pow_sub_one]
    simp

/-- Witness for claim C2: local company 3 gives mask 8, a spectator gives mask 65535. -/
theorem GetOverlayCompanyMask_spec_witness :
    (GetOverlayCompanyMask playerEnv = 2 ^ playerEnv.local_company ∧
      ∀ i : Nat, (GetOverlayCompanyMask playerEnv).testBit i = true ↔
        i = playerEnv.local_company) ∧
    (GetOverlayCompanyMask spectatorEnv = MAX_UVALUE spectatorEnv.companyMaskBits ∧
      GetOverlayCompanyMask spectatorEnv + 1 = 2 ^ spectatorEnv.companyMaskBits ∧
      ∀ i : Nat, (GetOverlayCompanyMask spectatorEnv).testBit i = true ↔
        i < spectatorEnv.companyMaskBits) :=
  ⟨(GetOverlayCompanyMask_spec playerEnv).1 (by decide) (by decide) (by decide),
   (GetOverlayCompanyMask_spec spectatorEnv).2 (by decide)⟩

/-! ## Interval timers -/

/-- The pixels painted by the vertical indicator. -/
theorem painted_DrawVertMapIndicator (x y y2 px py : Int) :
    painted (DrawVertMapIndicator x y y2) px py = true ↔
      px = x ∧ ((y ≤ py ∧ py ≤ y + 3) ∨ (y2 - 3 ≤ py ∧ py ≤ y2)) := by
  simp only [painted, DrawVertMapIndicator, FillRect.covers, List.any_cons, List.any_nil,
    Bool.or_false, Bool.or_eq_true, decide_eq_true_eq]
  omega

/-- The pixels painted by the horizontal indicator. -/
theorem painted_DrawHorizMapIndicator (x x2 y px py : Int) :
    painted (DrawHorizMapIndicator x x2 y) px py = true ↔
      py = y ∧ ((x ≤ px ∧ px ≤ x + 3) ∨ (x2 - 3 ≤ px ∧ px ≤ x2)) := by
  simp only [painted, DrawHorizMapIndicator, FillRect.covers, List.any_cons, List.any_nil,
    Bool.or_false, Bool.or_eq_true, decide_eq_true_eq]
  omega

/-- Claim C10: DrawVertMapIndicator(x, y, y2) issues exactly two fills in
PC_VERY_LIGHT_YELLOW, both one pixel wide in column x, covering rows y..y+3 and
y2-3..y2. DrawHorizMapIndicator(x, x2, y) issues exactly two such fills, both one pixel
high in row y, covering columns x..x+3 and x2-3..x2. For y2 >= y + 3 (x2 >= x + 3) every
painted pixel lies on the segment between the two end points and both end points are
painted. DrawHorizMapIndicator is DrawVertMapIndicator with the axes exchanged. -/
theorem map_indicator_spec (x y x2 y2 : Int) :
    ((DrawVertMapIndicator x y y2).length = 2 ∧
      (∀ r ∈ DrawVertMapIndicator x y y2,
        r.colour = PaletteColour.PC_VERY_LIGHT_YELLOW ∧ r.left = x ∧ r.right = x) ∧
      (∀ px py : Int, painted (DrawVertMapIndicator x y y2) px py = true ↔
        px = x ∧ ((y ≤ py ∧ py ≤ y + 3) ∨ (y2 - 3 ≤ py ∧ py ≤ y2)))) ∧
    ((DrawHorizMapIndicator x x2 y).length = 2 ∧
      (∀ r ∈ DrawHorizMapIndicator x x2 y,
        r.colour = PaletteColour.PC_VERY_LIGHT_YELLOW ∧ r.top = y ∧ r.bottom = y) ∧
      (∀ px py : Int, painted (DrawHorizMapIndicator x x2 y) px py = true ↔
        py = y ∧ ((x ≤ px ∧ px ≤ x + 3) ∨ (x2 - 3 ≤ px ∧ px ≤ x2)))) ∧
    (y + 3 ≤ y2 →
      (∀ px py : Int, painted (DrawVertMapIndicator x y y2) px py = true →
        px = x ∧ y ≤ py ∧ py ≤ y2) ∧
      painted (DrawVertMapIndicator x y y2) x y = true ∧
      painted (DrawVertMapIndicator x y y2) x y2 = true) ∧
    (x + 3 ≤ x2 →
      (∀ px py : Int, painted (DrawHorizMapIndicator x x2 y) px py = true →
        py = y ∧ x ≤ px ∧ px ≤ x2) ∧
      painted (DrawHorizMapIndicator x x2 y) x y = true ∧
      painted (DrawHorizMapIndicator x x2 y) x2 y = true) ∧
    DrawHorizMapIndicator x x2 y = (DrawVertMapIndicator y x x2).map FillRect.transpose ∧
    (∀ px py : Int, painted (DrawHorizMapIndicator x x2 y) px py =
      painted (DrawVertMapIndicator y x x2) py px) := by
  refine ⟨⟨rfl, ?_, painted_DrawVertMapIndicator x y y2⟩,
    ⟨rfl, ?_, painted_DrawHorizMapIndicator x x2 y⟩, ?_, ?_, rfl, ?_⟩
  · intro r hr
    simp only [DrawVertMapIndicator, List.mem_cons, List.mem_singleton, List.mem_nil_iff,
      or_false] at hr
    rcases hr with h | h <;> subst h <;> exact ⟨rfl, rfl, rfl⟩
  · intro r hr
    simp only [DrawHorizMapIndicator, List.mem_cons, List.mem_singleton, List.mem_nil_iff,
      or_false] at hr
    rcases hr with h | h <;> subst h <;> exact ⟨rfl, rfl, rfl⟩
  · intro hlen
    refine ⟨?_, ?_, ?_⟩
    · intro px py hp
      have h := (painted_DrawVertMapIndicator x y y2 px py).mp hp
      omega
    · exact (painted_DrawVertMapIndicator x y y2 x y).mpr (by omega)
    · exact (painted_DrawVertMapIndicator x y y2 x y2).mpr (by omega)
  · intro hlen
    refine ⟨?_, ?_, ?_⟩
    · intro px py hp
      have h := (painted_DrawHorizMapIndicator x x2 y px py).mp hp
      omega
    · exact (painted_DrawHorizMapIndicator x x2 y x y).mpr (by omega)
    · exact (painted_DrawHorizMapIndicator x x2 y x2 y).mpr (by omega)
  · intro px py
    rw [Bool.eq_iff_iff, painted_DrawHorizMapIndicator, painted_DrawVertMapIndicator]

/-- Witness for claim C10: the indicator of a viewport from (10, 20) to (50, 40). -/
theorem map_indicator_spec_witness :
    ((∀ px py : Int, painted (DrawVertMapIndicator 10 20 40) px py = true →
        px = 10 ∧ 20 ≤ py ∧ py ≤ 40) ∧
      painted (DrawVertMapIndicator 10 20 40) 10 20 = true ∧
      painted (DrawVertMapIndicator 10 20 40) 10 40 = true) ∧
    ((∀ px py : Int, painted (DrawHorizMapIndicator 10 50 20) px py = true →
        py = 20 ∧ 10 ≤ px ∧ px ≤ 50) ∧
      painted (DrawHorizMapIndicator 10 50 20) 10 20 = true ∧
      painted (DrawHorizMapIndicator 10 50 20) 50 20 = true) :=
  ⟨(map_indicator_spec 10 20 50 40).2.2.1 (by decide),
   (map_indicator_spec 10 20 50 40).2.2.2.1 (by decide)⟩

end SmallMap
